import Mathlib

/-!
Verification development for the collectible-card-generator repository.

The repository's core is a card-game assembly pipeline (`card_generator.py`)
and a template-substitution renderer (`html_card_generator.py`).  This file
is a shallow embedding of those two modules: pure Python functions become
Lean functions over `String`/`Int`/`List`; the external world (network calls,
the filesystem, the `wkhtmltoimage` rasterizer) is passed in as explicit
oracle parameters; Python exceptions become an `Except PyExc` result.

Python string primitives (`str.lower`, `str.upper`, `str.title`,
`str.replace`) are re-implemented over the character list of a `String`
(ASCII behaviour, which is all the repository's data uses), so that every
definition evaluates inside the kernel.
-/

/-! ## Python string primitives -/

/-- Python `str.lower()` (ASCII). -/
def pyLower (s : String) : String := ⟨s.data.map Char.toLower⟩

/-- Python `str.upper()` (ASCII). -/
def pyUpper (s : String) : String := ⟨s.data.map Char.toUpper⟩

/-- Worker for `pyTitle`: the Boolean records whether the previous character
was cased (a letter), in which case a following letter is lowercased rather
than uppercased. -/
def pyTitleAux : List Char → Bool → List Char
  | [], _ => []
  | c :: cs, prevCased =>
    (if c.isAlpha then (if prevCased then c.toLower else c.toUpper) else c)
      :: pyTitleAux cs c.isAlpha

/-- Python `str.title()` (ASCII): the first letter of every run of letters is
uppercased, the rest lowercased. -/
def pyTitle (s : String) : String := ⟨pyTitleAux s.data false⟩

/-- Worker for `pyReplace`, structurally recursive on a fuel argument so that
it reduces inside the kernel.  The fuel is the length of the list being
scanned, which bounds the number of recursive calls because a non-empty
pattern always consumes at least one character. -/
def pyReplaceAux (pat rep : List Char) : Nat → List Char → List Char
  | _, [] => []
  | 0, l => l
  | n + 1, c :: cs =>
    if pat.isPrefixOf (c :: cs) ∧ pat ≠ [] then
      rep ++ pyReplaceAux pat rep n ((c :: cs).drop pat.length)
    else
      c :: pyReplaceAux pat rep n cs

/-- Python `s.replace(pat, rep)` for a non-empty pattern (every pattern used
by the repository is non-empty); all occurrences are replaced, scanning left
to right. -/
def pyReplace (s pat rep : String) : String :=
  ⟨pyReplaceAux pat.data rep.data s.data.length s.data⟩

/-- Python `f-string` zero padding `{n:03d}` for a natural number. -/
def zpad3 (n : Nat) : String :=
  let s := toString n
  ⟨List.replicate (3 - s.data.length) '0'⟩ ++ s

/-- First-occurrence deduplication.  Python's `set(...)` iterates in an
implementation-defined order; everywhere the repository consumes the set
(the card-type listing of the rules file) only the underlying set matters,
and we fix first-occurrence order as its representative. -/
def dedupFirstAux : List String → List String → List String
  | _, [] => []
  | seen, x :: xs =>
    if seen.contains x then dedupFirstAux seen xs
    else x :: dedupFirstAux (x :: seen) xs

/-- See `dedupFirstAux`. -/
def dedupFirst (l : List String) : List String := dedupFirstAux [] l

/-! ## Card data model (`card_generator.py`, `Card` dataclass)

`stats` is a mapping from stat name to integer value; Python's insertion
ordered `dict` is modelled as an association list. -/

structure Card where
  name : String
  description : String
  image_prompt : String
  stats : List (String × Int)
  card_type : String
deriving DecidableEq

/-- JSON-like structured values, as produced by `json.loads` /
`response.json()`.  Numbers are modelled as integers: every number the
repository's schema mentions is an integer. -/
inductive JValue where
  | null
  | bool (b : Bool)
  | int (n : Int)
  | str (s : String)
  | arr (xs : List JValue)
  | obj (fields : List (String × JValue))

/-- `dataclasses.asdict`: the serialized structured document of a Card — a
flat object with exactly the five fields, in dataclass field order, values
unmodified (the stats mapping becomes a nested object of integers).
Source: `Card.to_dict`. -/
def Card.to_dict (c : Card) : JValue :=
  .obj [("name", .str c.name),
        ("description", .str c.description),
        ("image_prompt", .str c.image_prompt),
        ("stats", .obj (c.stats.map fun p => (p.1, .int p.2))),
        ("card_type", .str c.card_type)]

/-- The list of field names of a serialized card document. -/
def docKeys : JValue → List String
  | .obj fields => fields.map (fun p => p.1)
  | _ => []

/-- Modelled from the spec: decoding the nested stats object of a serialized
card back into a stats mapping ("stats as a nested mapping of
string→integer"); the repository has no card-parsing code under `src/`. -/
def decodeStats : List (String × JValue) → Option (List (String × Int))
  | [] => some []
  | (k, .int v) :: rest => (decodeStats rest).map fun r => (k, v) :: r
  | _ => none

/-- Modelled from the spec: parsing a serialized card document back into a
Card ("serializing a Card to its structured document and parsing it back
yields field-for-field equality"); the repository has no card-parsing code
under `src/`.  The five expected fields are read back with their expected
shapes; anything else fails. -/
def card_from_document : JValue → Option Card
  | .obj fields =>
    match fields.lookup "name", fields.lookup "description",
          fields.lookup "image_prompt", fields.lookup "stats",
          fields.lookup "card_type" with
    | some (.str n), some (.str d), some (.str ip), some (.obj st),
      some (.str ct) =>
      (decodeStats st).map fun s =>
        { name := n, description := d, image_prompt := ip, stats := s,
          card_type := ct }
    | _, _, _, _, _ => none
  | _ => none

/-! ## Python exceptions

Only the identity of an exception's class matters to the embedded control
flow (which `except` clause, if any, catches it). -/

inductive PyExc where
  | requestException   -- requests.exceptions.RequestException (incl. HTTPError)
  | jsonDecodeError    -- json.JSONDecodeError
  | keyError           -- KeyError
  | indexError         -- IndexError
  | typeError          -- TypeError
  | osError            -- OSError (incl. FileNotFoundError)
deriving DecidableEq

/-! ## Renderer module (`html_card_generator.py`)

The template registry is static; the catalog filters it against resource
existence, which is supplied as a `fileExists` oracle.  The external
rasterizer is supplied as a `RasterInvocation` oracle describing how the
`subprocess.run` call behaves. -/

structure TemplateDef where
  filename : String
  tname : String
  tdescription : String
deriving DecidableEq

/-- Source: the `TEMPLATES` registry (declaration order preserved). -/
def TEMPLATES : List (String × TemplateDef) :=
  [("bright_swiss",
    { filename := "bright_swiss_template.html",
      tname := "Bright Swiss Design",
      tdescription := "A modern Swiss-inspired design with bright yellow and blue accents." }),
   ("detailed",
    { filename := "detailed_representation_template.html",
      tname := "Detailed Representation",
      tdescription := "A detailed, ornate design with a focus on clear information hierarchy." })]

structure TemplateInfo where
  tname : String
  tdescription : String
  path : String
deriving DecidableEq

/-- Source: `get_available_templates`.  `ASSETS_DIR` is modelled as the
relative directory `assets`; `fileExists` is the filesystem oracle for
`Path.exists`.  Registry declaration order is preserved by the filter. -/
def get_available_templates (fileExists : String → Bool) :
    List (String × TemplateInfo) :=
  TEMPLATES.filterMap fun t =>
    let path := "assets/" ++ t.2.filename
    if fileExists path then
      some (t.1, { tname := t.2.tname, tdescription := t.2.tdescription,
                   path := path })
    else none

/-- Source: `_encode_image_to_base64`.  The artwork file is modelled as
`none` (missing) or `some b64` (present, with `b64` the base64 encoding of
its bytes). -/
def _encode_image_to_base64 (artwork : Option String) : String :=
  match artwork with
  | some b64 => "data:image/png;base64," ++ b64
  | none => "https://placehold.co/428x350/000/FFF?text=Image+Not+Found"

/-- Source: `_generate_stats_html`. -/
def _generate_stats_html (stats : List (String × Int)) : String :=
  if stats.isEmpty then "No Stats Available"
  else
    stats.foldl
      (fun acc p =>
        acc ++ "\n            <div class=\"stat-item\">\n                <div class=\"stat-label\">"
            ++ pyUpper p.1
            ++ "</div>\n                <div class=\"stat-value\">"
            ++ toString p.2
            ++ "</div>\n            </div>\n        ")
      ""

/-- Source: `_determine_rarity`. -/
def _determine_rarity (stats : List (String × Int)) : String :=
  let total : Int := if stats.isEmpty then 0 else (stats.map fun p => p.2).sum
  if total > 20 then "Legendary"
  else if total > 15 then "Epic"
  else if total > 10 then "Rare"
  else "Common"

/-- The intermediate document's path: `output_path.replace('.png', '_temp.html')`. -/
def temp_html_path (output_path : String) : String :=
  pyReplace output_path ".png" "_temp.html"

/-- Source: the placeholder substitution of `create_html_card` — the seven
named tokens, replaced in declaration order. -/
def substituted_html (tmpl : String) (card : Card) (img_src : String)
    (card_number : Nat) : String :=
  let replacements : List (String × String) :=
    [("\x7b\x7bCARD_NAME\x7d\x7d", card.name),
     ("\x7b\x7bCARD_TYPE\x7d\x7d", pyTitle card.card_type),
     ("\x7b\x7bCARD_IMAGE_URL\x7d\x7d", img_src),
     ("\x7b\x7bCARD_DESCRIPTION\x7d\x7d", card.description),
     ("\x7b\x7bCARD_STATS\x7d\x7d", _generate_stats_html card.stats),
     ("\x7b\x7bCARD_RARITY\x7d\x7d", _determine_rarity card.stats),
     ("\x7b\x7bCARD_NUMBER\x7d\x7d", zpad3 card_number)]
  replacements.foldl (fun acc p => pyReplace acc p.1 p.2) tmpl

/-- How the `subprocess.run(['wkhtmltoimage', ...])` call behaves:
it either runs to completion with an exit code (`exits true` for code 0,
`exits false` otherwise) or the invocation itself raises — for instance
`FileNotFoundError` when the `wkhtmltoimage` binary is not installed. -/
inductive RasterInvocation where
  | exits (ok : Bool)
  | raises

/-- What is observable after a `create_html_card` call returns. -/
structure RenderOutcome where
  returned : Bool          -- the Boolean the call returns
  tempRemains : Bool       -- whether the intermediate document still exists
  outputWritten : Bool     -- whether the rasterizer produced the output image
  tempPath : String        -- where the intermediate document is placed
  tempContent : Option String  -- content written to it, if it was written

/-- Source: `create_html_card`.  The filesystem is abstracted to what the
function touches: `template` is `none` when the template file is missing
(its `open` raises `FileNotFoundError`, caught by the first `except`
clause), otherwise `some` its text; `artwork` is the artwork file as in
`_encode_image_to_base64`; `raster` is the behaviour of the rasterizer
invocation.  The cleanup of the intermediate document (`os.remove`) is
executed inside the `try` block right after `_run_wkhtmltoimage` returns —
so it runs when the rasterizer exits (with any code), but an exception
raised by the invocation itself jumps straight to the `except` clauses,
which return `False` without removing the file. -/
def create_html_card (card : Card) (artwork : Option String)
    (template : Option String) (output_path : String) (card_number : Nat)
    (raster : RasterInvocation) : RenderOutcome :=
  match template with
  | none =>
    -- open(template_path) raises FileNotFoundError before anything is written
    { returned := false, tempRemains := false, outputWritten := false,
      tempPath := temp_html_path output_path, tempContent := none }
  | some tmpl =>
    let img_src := _encode_image_to_base64 artwork
    let html := substituted_html tmpl card img_src card_number
    -- the intermediate document is written here
    match raster with
    | .exits ok =>
      -- cleanup runs; the output image exists exactly when the exit code was 0
      { returned := ok, tempRemains := false, outputWritten := ok,
        tempPath := temp_html_path output_path, tempContent := some html }
    | .raises =>
      -- the exception skips the cleanup; the except clause returns False
      { returned := false, tempRemains := true, outputWritten := false,
        tempPath := temp_html_path output_path, tempContent := some html }

/-! ## Card content source (`card_generator.py`, `generate_card_data`)

The HTTP layer is abstracted to a `NetOutcome`: the request raised a
`requests` exception (network failure, timeout, or the non-2xx status that
`raise_for_status` turns into `HTTPError`), or the response body was not
parseable by `response.json()`, or it parsed to a `JValue`.  The inner
`json.loads` on the message content is abstracted as a `parse` oracle from
strings to `Option JValue` (`none` = `json.JSONDecodeError`). -/

inductive NetOutcome where
  | netError                -- requests.exceptions.RequestException
  | badJsonBody             -- response.json() raises a decode error
  | response (j : JValue)   -- response.json() returned this value

/-- Python subscripting `v[k]` with a string key: a lookup on a mapping
(`KeyError` when absent), `TypeError` on anything else. -/
def pyGetStr : JValue → String → Except PyExc JValue
  | .obj fields, k =>
    match fields.lookup k with
    | some v => .ok v
    | none => .error .keyError
  | _, _ => .error .typeError

/-- Python subscripting `v[0]`: first element of a sequence (`IndexError`
when empty — including on a string), `KeyError` on a mapping whose keys are
the strings a JSON object carries, `TypeError` on anything else. -/
def pyGetZero : JValue → Except PyExc JValue
  | .arr [] => .error .indexError
  | .arr (x :: _) => .ok x
  | .str s => if s.isEmpty then .error .indexError
              else .ok (.str ⟨[s.data.headD ' ']⟩)
  | .obj _ => .error .keyError
  | _ => .error .typeError

/-- The card a successful parse produces.  Python performs no validation of
the field values it copies out of the parsed document, so each field holds
an arbitrary `JValue`. -/
structure CardData where
  name : JValue
  description : JValue
  image_prompt : JValue
  stats : JValue
  card_type : JValue

/-- The body of the `try` block of `generate_card_data` after the HTTP call:
`response_json["choices"][0]["message"]["content"]` is parsed with
`json.loads` and the five expected fields are read out.  `json.loads` on a
non-string raises `TypeError`. -/
def extract_card (j : JValue) (parse : String → Option JValue) :
    Except PyExc CardData := do
  let choices ← pyGetStr j "choices"
  let c0 ← pyGetZero choices
  let msg ← pyGetStr c0 "message"
  let content ← pyGetStr msg "content"
  let s ← match content with
    | .str s => Except.ok s
    | _ => Except.error .typeError
  let cd ← match parse s with
    | some v => Except.ok v
    | none => Except.error .jsonDecodeError
  let nm ← pyGetStr cd "name"
  let ds ← pyGetStr cd "description"
  let ip ← pyGetStr cd "image_prompt"
  let st ← pyGetStr cd "stats"
  let ct ← pyGetStr cd "card_type"
  return { name := nm, description := ds, image_prompt := ip, stats := st,
           card_type := ct }

/-- Source: `generate_card_data`.  The three `except` clauses catch exactly
`requests.exceptions.RequestException`, `json.JSONDecodeError` and
`KeyError`, each returning `None`; any other exception propagates to the
caller. -/
def generate_card_data (outcome : NetOutcome)
    (parse : String → Option JValue) : Except PyExc (Option CardData) :=
  match outcome with
  | .netError => .ok none
  | .badJsonBody => .ok none
  | .response j =>
    match extract_card j parse with
    | .ok cd => .ok (some cd)
    | .error .requestException => .ok none
    | .error .jsonDecodeError => .ok none
    | .error .keyError => .ok none
    | .error e => .error e

/-! ## Assembly pipeline (`card_generator.py`, `create_card_game_zip`)

The per-card effects of one pipeline run are recorded as lists: the progress
events handed to the callback (message, current step, total steps), and the
paths of the files written into the project directory.  The three external
collaborators are oracles indexed by the card number `i`:
`dataGen i` is the result of `generate_card_data` for card `i` (`none` =
generation failed, the caller sees `None`); `imgGen i` is the Boolean
`generate_card_image` returns (on `false` nothing was written and the
bundled placeholder path is substituted); `renderOk i` is the Boolean
`create_html_card` returns (on `false` no card image is produced). -/

/-- Source: the `THEME_CARD_TYPES` table. -/
def THEME_CARD_TYPES : List (String × List String) :=
  [("fantasy", ["creature", "spell", "artifact", "enchantment", "hero"]),
   ("medieval", ["creature", "spell", "artifact", "enchantment", "hero"]),
   ("magic", ["creature", "spell", "artifact", "enchantment", "hero"]),
   ("sci-fi", ["robot", "tech", "weapon", "vehicle", "alien"]),
   ("science fiction", ["robot", "tech", "weapon", "vehicle", "alien"]),
   ("futuristic", ["robot", "tech", "weapon", "vehicle", "alien"]),
   ("space", ["robot", "tech", "weapon", "vehicle", "alien"])]

/-- Source: the `DEFAULT_CARD_TYPES` constant. -/
def DEFAULT_CARD_TYPES : List String :=
  ["character", "action", "item", "location", "event"]

/-- Source: `_get_card_types_for_theme` — `THEME_CARD_TYPES.get(theme.lower(),
DEFAULT_CARD_TYPES)`. -/
def _get_card_types_for_theme (theme : String) : List String :=
  (THEME_CARD_TYPES.lookup (pyLower theme)).getD DEFAULT_CARD_TYPES

/-- Source: line 303 — `card_types[i % len(card_types)]`.  The list is one of
the two table rows or the default list, all of length 5, so the index is
always in bounds; `getD` supplies an unreachable default. -/
def assignedArchetype (theme : String) (i : Nat) : String :=
  let card_types := _get_card_types_for_theme theme
  card_types.getD (i % card_types.length) ""

/-- Source: `_create_fallback_card`. -/
def _create_fallback_card (theme card_type : String) (index : Nat) : Card :=
  { name := "Generic " ++ pyTitle card_type ++ " " ++ toString (index + 1),
    description := "A " ++ card_type ++ " card for the " ++ theme
      ++ " theme. (API Error Fallback)",
    image_prompt := "A " ++ theme ++ " " ++ card_type
      ++ " card artwork, digital art, detailed",
    stats := [("Power", ((index + 1 : Nat) : Int)),
              ("Cost", (((index + 1) / 2 + 1 : Nat) : Int)),
              ("Health", ((index + 2 : Nat) : Int))],
    card_type := card_type }

/-- Source: `_get_fallback_image_path` — the bundled placeholder artwork.
This path is outside the project directory, so substituting it writes
nothing into `cards/`. -/
def _get_fallback_image_path : String := "../assets/card_template.jpg"

/-- Source: `_generate_game_rules`.  `set(card.card_type ...)` is modelled
by `dedupFirst` (see there). -/
def _generate_game_rules (theme template_name : String)
    (generated_cards : List Card) : String :=
  let card_types := dedupFirst (generated_cards.map fun c => c.card_type)
  let rules := "Card Game: " ++ pyTitle theme ++ "\n"
    ++ (⟨List.replicate 50 '='⟩ : String)
    ++ "\n\nTemplate Style: " ++ template_name
    ++ "\n\nBASIC RULES:\n- Each player starts with a deck of cards\n- Draw cards from your deck each turn\n- Play cards to attack opponents or defend yourself\n- Use card stats (power, cost, etc.) to determine outcomes\n- First player to reduce opponent\x27s health to 0 wins!\n\nCARD TYPES:\n"
  let rules := card_types.foldl
    (fun acc t => acc ++ "- " ++ pyTitle t ++ ": Special abilities and effects\n")
    rules
  rules ++ "\nGenerated " ++ toString generated_cards.length
    ++ " unique cards for your " ++ theme ++ " themed game!\n"

/-- Worker for `_generate_readme`: the numbered card listing
(`enumerate(generated_cards)`). -/
def readmeLines (cards : List Card) (start : Nat) : String :=
  match cards with
  | [] => ""
  | c :: rest =>
    toString (start + 1) ++ ". **" ++ c.name ++ "** (" ++ c.card_type
      ++ "): " ++ c.description ++ "\n" ++ readmeLines rest (start + 1)

/-- Source: `_generate_readme`. -/
def _generate_readme (theme template_name : String)
    (generated_cards : List Card) : String :=
  "# " ++ pyTitle theme ++ " Card Game\n\nThis card game was generated using the Card Game Generator.\n\n**Template Style:** "
    ++ template_name
    ++ "\n\n## Contents\n- `cards/`: Contains all card data (JSON) and images (PNG)\n- `game_info/`: Contains game rules and documentation\n\n## Cards Generated\n"
    ++ readmeLines generated_cards 0

/-- Source: lines 279-287 of `create_card_game_zip`, plus the
`templates[template_style]` subscript of line 286: an unknown id is replaced
by the first available id (or the literal `"bright_swiss"` when the catalog
is empty, in which case the subscript raises `KeyError`). -/
def resolveTemplate (templates : List (String × TemplateInfo))
    (template_style : String) : Except PyExc (String × TemplateInfo) :=
  let ts := if (templates.lookup template_style).isSome then template_style
            else match templates with
                 | [] => "bright_swiss"
                 | t :: _ => t.1
  match templates.lookup ts with
  | some info => .ok (ts, info)
  | none => .error .keyError

/-- The mutable state threaded through the per-card loop of
`create_card_game_zip`. -/
structure PipeState where
  current_step : Int
  events : List (String × Int × Int)
  cards : List Card
  jsonFiles : List String
  rawFiles : List String
  cardImageFiles : List String
deriving DecidableEq

/-- Source: one iteration of the `for i in range(num_cards)` loop of
`create_card_game_zip` (lines 302-340). -/
def pipeStep (theme cards_dir : String) (num_cards total_steps : Int)
    (card_types : List String) (dataGen : Nat → Option Card)
    (imgGen renderOk : Nat → Bool) (st : PipeState) (i : Nat) : PipeState :=
  let card_type := card_types.getD (i % card_types.length) ""
  let ev1 := ("Generating card data " ++ toString (i + 1) ++ "/"
      ++ toString num_cards ++ ": " ++ card_type, st.current_step, total_steps)
  let card := match dataGen i with
    | some c => c
    | none => _create_fallback_card theme card_type i
  let step1 := st.current_step + 1
  let base := pyLower (pyReplace card.name " " "_") ++ "_" ++ toString i
  let jsonPath := cards_dir ++ "/" ++ base ++ ".json"
  let ev2 := ("Generating artwork for " ++ card.name, step1, total_steps)
  let rawPath := cards_dir ++ "/" ++ ("raw_" ++ base ++ ".png")
  let raws := if imgGen i then st.rawFiles ++ [rawPath] else st.rawFiles
  let step2 := step1 + 1
  let ev3 := ("Creating playable card for " ++ card.name, step2, total_steps)
  let playablePath := cards_dir ++ "/" ++ base ++ ".png"
  let rendered := if renderOk i then st.cardImageFiles ++ [playablePath]
                  else st.cardImageFiles
  { current_step := step2 + 1,
    events := st.events ++ [ev1, ev2, ev3],
    cards := st.cards ++ [card],
    jsonFiles := st.jsonFiles ++ [jsonPath],
    rawFiles := raws,
    cardImageFiles := rendered }

/-- Everything observable after a `create_card_game_zip` run returns. -/
structure PipeResult where
  events : List (String × Int × Int)
  cards : List Card
  jsonFiles : List String
  rawFiles : List String
  cardImageFiles : List String
  rules : String
  readme : String
  rulesPath : String
  readmePath : String
  zipPath : String
  zipEntries : List String
deriving DecidableEq

/-- Source: `create_card_game_zip`.  `num_cards` is a Python `int` and may
be non-positive: `range(num_cards)` is then empty, which `Int.toNat` models.
The archive is the recursive walk of the project directory; its entry set is
every file written (`zipEntries`, recorded here category-first whereas
`os.walk` yields directory order — no claim depends on the order). -/
def create_card_game_zip (theme output_dir : String) (num_cards : Int)
    (template_style : String) (fileExists : String → Bool)
    (dataGen : Nat → Option Card) (imgGen renderOk : Nat → Bool) :
    Except PyExc PipeResult :=
  let safe_theme := pyLower (pyReplace theme " " "_")
  let project_dir := output_dir ++ "/" ++ (safe_theme ++ "_card_game")
  let cards_dir := project_dir ++ "/cards"
  let game_info_dir := project_dir ++ "/game_info"
  let templates := get_available_templates fileExists
  match resolveTemplate templates template_style with
  | .error e => .error e
  | .ok (_, info) =>
    let template_name := info.tname
    let card_types := _get_card_types_for_theme theme
    let total_steps := num_cards * 3
    let final := (List.range num_cards.toNat).foldl
      (pipeStep theme cards_dir num_cards total_steps card_types dataGen
        imgGen renderOk)
      { current_step := 0, events := [], cards := [], jsonFiles := [],
        rawFiles := [], cardImageFiles := [] }
    let rules := _generate_game_rules theme template_name final.cards
    let readme := _generate_readme theme template_name final.cards
    let rulesPath := game_info_dir ++ "/game_rules.txt"
    let readmePath := project_dir ++ "/README.md"
    let zipPath := project_dir ++ ".zip"
    .ok { events := final.events
            ++ [("Card game generated successfully!", total_steps, total_steps)],
          cards := final.cards,
          jsonFiles := final.jsonFiles,
          rawFiles := final.rawFiles,
          cardImageFiles := final.cardImageFiles,
          rules := rules,
          readme := readme,
          rulesPath := rulesPath,
          readmePath := readmePath,
          zipPath := zipPath,
          zipEntries := final.jsonFiles ++ final.rawFiles
            ++ final.cardImageFiles ++ [rulesPath, readmePath] }

/-! Accessors used to state closed facts about a pipeline run. -/

/-- The progress events of a successful run. -/
def runEvents (x : Except PyExc PipeResult) : Option (List (String × Int × Int)) :=
  match x with
  | .ok r => some r.events
  | .error _ => none

/-- The numeric (step, total) components of the progress events of a
successful run. -/
def runEventSteps (x : Except PyExc PipeResult) : Option (List (Int × Int)) :=
  match x with
  | .ok r => some (r.events.map fun e => e.2)
  | .error _ => none

/-- The raw-artwork files a successful run wrote into `cards/`. -/
def runRawFiles (x : Except PyExc PipeResult) : Option (List String) :=
  match x with
  | .ok r => some r.rawFiles
  | .error _ => none

/-! ## Theorems -/

/-- The sum of the stat values of a stats mapping. -/
def statsSum (stats : List (String × Int)) : Int := (stats.map fun p => p.2).sum

/-- The rarity tiers as the specification words them: closed intervals of
the stat-value sum, highest first. -/
def raritySpecOfTotal (total : Int) : String :=
  if 20 < total then "Legendary"
  else if 15 < total ∧ total ≤ 20 then "Epic"
  else if 10 < total ∧ total ≤ 15 then "Rare"
  else "Common"

/-- C1: rarity classification is a pure function of the stat-value sum with
strictly-ordered thresholds evaluated highest-first — sum > 20 is Legendary,
15 < sum ≤ 20 is Epic, 10 < sum ≤ 15 is Rare, sum ≤ 10 (including the empty
mapping) is Common; the boundary sums 10, 15, 20 land in the lower tier. -/
theorem C1_rarity_thresholds :
    (∀ stats : List (String × Int),
        _determine_rarity stats = raritySpecOfTotal (statsSum stats))
    ∧ _determine_rarity [] = "Common"
    ∧ _determine_rarity [("A", 10)] = "Common"
    ∧ _determine_rarity [("A", 15)] = "Rare"
    ∧ _determine_rarity [("A", 20)] = "Epic"
    ∧ _determine_rarity [("A", 21)] = "Legendary" := by
  refine ⟨?_, by decide, by decide, by decide, by decide, by decide⟩
  intro stats
  have h : ∀ total : Int,
      (if total > 20 then "Legendary"
       else if total > 15 then "Epic"
       else if total > 10 then "Rare" else "Common") = raritySpecOfTotal total := by
    intro t
    unfold raritySpecOfTotal
    split_ifs <;> first | rfl | omega
  rcases stats with _ | ⟨a, l⟩
  · rfl
  · exact h _

/-- C5 counterexample: at index 3 the fallback cost is (3+1) // 2 + 1 = 3,
not the 2 the claim's example states. -/
theorem C5_counterexample :
    (_create_fallback_card "Fantasy" "spell" 3).stats
      = [("Power", 4), ("Cost", 3), ("Health", 5)]
    ∧ (_create_fallback_card "Fantasy" "spell" 3).stats
      ≠ [("Power", 4), ("Cost", 2), ("Health", 5)] := by
  exact ⟨rfl, by decide⟩

/-- C5 (amended): the fallback card is deterministic in (theme, archetype,
index): name "Generic {Archetype} {i+1}" with the archetype title-cased,
stats exactly Power = i+1, Cost = floor((i+1)/2)+1, Health = i+2, card_type
the archetype, a description referencing the theme and the API-error
fallback, and a generic artwork prompt; i = 0 gives Power 1, Cost 1,
Health 2, and i = 3 gives Power 4, Cost 3, Health 5. -/
theorem C5_fallback_card (theme card_type : String) (i : Nat) :
    _create_fallback_card theme card_type i =
      { name := "Generic " ++ pyTitle card_type ++ " " ++ toString (i + 1),
        description := "A " ++ card_type ++ " card for the " ++ theme
          ++ " theme. (API Error Fallback)",
        image_prompt := "A " ++ theme ++ " " ++ card_type
          ++ " card artwork, digital art, detailed",
        stats := [("Power", (i : Int) + 1),
                  ("Cost", ((i : Int) + 1) / 2 + 1),
                  ("Health", (i : Int) + 2)],
        card_type := card_type }
    ∧ (_create_fallback_card theme card_type 0).stats
        = [("Power", 1), ("Cost", 1), ("Health", 2)]
    ∧ (_create_fallback_card theme card_type 3).stats
        = [("Power", 4), ("Cost", 3), ("Health", 5)] := by
  refine ⟨?_, rfl, rfl⟩
  simp only [_create_fallback_card, Card.mk.injEq, List.cons.injEq,
    Prod.mk.injEq, and_true, true_and]
  repeat' apply And.intro
  all_goals rfl

/-- Every archetype list the theme table can produce has length 5. -/
theorem lookup_getD_length (l : List (String × List String)) (k : String)
    (d : List String) (hd : d.length = 5) (hl : ∀ p ∈ l, p.2.length = 5) :
    ((l.lookup k).getD d).length = 5 := by
  induction l with
  | nil => simpa [List.lookup] using hd
  | cons a l ih =>
    obtain ⟨ka, va⟩ := a
    cases hk : (k == ka) with
    | true =>
      simp only [List.lookup, hk, Option.getD_some]
      exact hl (ka, va) (by simp)
    | false =>
      simp only [List.lookup, hk]
      exact ih fun p hp => hl p (by simp [hp])

/-- See `lookup_getD_length`. -/
theorem card_types_length (theme : String) :
    (_get_card_types_for_theme theme).length = 5 :=
  lookup_getD_length THEME_CARD_TYPES (pyLower theme) DEFAULT_CARD_TYPES
    (by decide) (by decide)

/-- C4: archetype assignment is a case-insensitive table lookup (default
list {character, action, item, location, event} for absent themes) followed
by cyclic indexing modulo the list length (always 5); theme "fantasy" over
indices 0..6 yields creature, spell, artifact, enchantment, hero, creature,
spell. -/
theorem C4_archetype_cycling :
    (∀ theme, _get_card_types_for_theme theme =
        (THEME_CARD_TYPES.lookup (pyLower theme)).getD DEFAULT_CARD_TYPES)
    ∧ (∀ theme, (_get_card_types_for_theme theme).length = 5)
    ∧ (∀ theme i, assignedArchetype theme i =
        (_get_card_types_for_theme theme).getD (i % 5) "")
    ∧ (∀ theme i, assignedArchetype theme (i + 5) = assignedArchetype theme i)
    ∧ (List.range 7).map (assignedArchetype "fantasy") =
        ["creature", "spell", "artifact", "enchantment", "hero", "creature",
         "spell"]
    ∧ (List.range 7).map (assignedArchetype "FANTASY") =
        ["creature", "spell", "artifact", "enchantment", "hero", "creature",
         "spell"]
    ∧ (List.range 3).map (assignedArchetype "steampunk") =
        ["character", "action", "item"] := by
  have hmod : ∀ theme i, assignedArchetype theme i =
      (_get_card_types_for_theme theme).getD (i % 5) "" := by
    intro theme i
    simp only [assignedArchetype, card_types_length]
  refine ⟨fun _ => rfl, card_types_length, hmod, ?_, by decide, by decide,
    by decide⟩
  intro theme i
  rw [hmod, hmod, Nat.add_mod_right]

/-- Decoding inverts the encoding of a stats mapping. -/
theorem decodeStats_enc (stats : List (String × Int)) :
    decodeStats (stats.map fun p => (p.1, JValue.int p.2)) = some stats := by
  induction stats with
  | nil => rfl
  | cons a l ih =>
    obtain ⟨k, v⟩ := a
    simp only [List.map_cons, decodeStats, ih]
    rfl

/-- C9: card serialization round-trips — the serialized document is a flat
object with exactly the five fields name, description, image_prompt, stats,
card_type (values unmodified), and parsing it back yields a field-for-field
equal Card. -/
theorem C9_serialization_roundtrip (c : Card) :
    card_from_document c.to_dict = some c
    ∧ docKeys c.to_dict =
        ["name", "description", "image_prompt", "stats", "card_type"] := by
  obtain ⟨n, d, ip, st, ct⟩ := c
  constructor
  · show (decodeStats (st.map fun p => (p.1, JValue.int p.2))).map _ = _
    rw [decodeStats_enc]
    rfl
  · rfl

/-- C3 counterexample: a response whose "choices" field is an empty array —
`response_json["choices"][0]` raises `IndexError`, which none of the three
`except` clauses catches, so the call raises instead of returning None. -/
theorem C3_counterexample :
    generate_card_data (.response (.obj [("choices", .arr [])]))
      (fun _ => none) = .error .indexError := rfl

/-- C3 (amended): network failures and non-parseable response bodies return
None, and so do `json.JSONDecodeError` and `KeyError` raised while digging
out the fields — those three exception classes never propagate; but other
malformed shapes propagate uncaught exceptions (`IndexError` on an empty
"choices" array, `TypeError` on non-mapping subscripts), and a successful
call returns exactly the five fields extracted from the parsed response. -/
theorem C3_exception_policy (parse : String → Option JValue) (j : JValue) :
    generate_card_data .netError parse = .ok none
    ∧ generate_card_data .badJsonBody parse = .ok none
    ∧ generate_card_data (.response j) parse ≠ .error .requestException
    ∧ generate_card_data (.response j) parse ≠ .error .jsonDecodeError
    ∧ generate_card_data (.response j) parse ≠ .error .keyError
    ∧ ∀ cd, generate_card_data (.response j) parse = .ok (some cd) →
        extract_card j parse = .ok cd := by
  refine ⟨rfl, rfl, ?_, ?_, ?_, ?_⟩
  case _ =>
    simp only [generate_card_data]
    rcases h : extract_card j parse with e | cd
    · cases e <;> simp
    · simp
  case _ =>
    simp only [generate_card_data]
    rcases h : extract_card j parse with e | cd
    · cases e <;> simp
    · simp
  case _ =>
    simp only [generate_card_data]
    rcases h : extract_card j parse with e | cd
    · cases e <;> simp
    · simp
  case _ =>
    intro cd hcd
    simp only [generate_card_data] at hcd
    rcases h : extract_card j parse with e | cd2
    · rw [h] at hcd
      cases e <;> simp at hcd
    · rw [h] at hcd
      simp only [Except.ok.injEq, Option.some.injEq] at hcd
      rw [hcd]

/-- C7: resolving an unknown template id against a non-empty catalog
returns the catalog's first descriptor (registry declaration order) — a
member of the available set that is never the unknown id itself — and
raises nothing; only the empty catalog resolves to a `KeyError`. -/
theorem C7_unknown_template_fallback (fileExists : String → Bool)
    (style : String)
    (hunk : (get_available_templates fileExists).lookup style = none)
    (hne : get_available_templates fileExists ≠ []) :
    (∃ k info,
      resolveTemplate (get_available_templates fileExists) style
        = .ok (k, info)
      ∧ (get_available_templates fileExists).head? = some (k, info)
      ∧ (k, info) ∈ get_available_templates fileExists
      ∧ k ≠ style)
    ∧ resolveTemplate [] style = .error .keyError := by
  refine ⟨?_, rfl⟩
  rcases hcat : get_available_templates fileExists with _ | ⟨⟨k, info⟩, rest⟩
  · exact absurd hcat hne
  · rw [hcat] at hunk
    refine ⟨k, info, ?_, rfl, by simp, ?_⟩
    · simp only [resolveTemplate, hunk, Option.isSome_none, Bool.false_eq_true,
        if_false]
      simp [List.lookup]
    · intro hks
      rw [hks] at hunk
      simp [List.lookup] at hunk

/-- C7 witness: the unregistered id "modern" against the full catalog
resolves to the first registered descriptor. -/
theorem C7_unknown_template_fallback_witness :
    ((get_available_templates (fun _ => true)).lookup "modern" = none)
    ∧ (get_available_templates (fun _ => true) ≠ [])
    ∧ ((∃ k info,
        resolveTemplate (get_available_templates (fun _ => true)) "modern"
          = .ok (k, info)
        ∧ (get_available_templates (fun _ => true)).head? = some (k, info)
        ∧ (k, info) ∈ get_available_templates (fun _ => true)
        ∧ k ≠ "modern")
      ∧ resolveTemplate [] "modern" = .error .keyError) :=
  ⟨by decide, by decide,
   C7_unknown_template_fallback (fun _ => true) "modern" (by decide)
     (by decide)⟩

/-- C2: the intermediate document is removed whenever the rasterizer
invocation runs to completion — with exit code 0 (success) or non-zero
(failure) — but when the invocation itself raises after the intermediate
file was written (e.g. `FileNotFoundError` because the `wkhtmltoimage`
binary is absent), the `except` clauses return False without removing it,
so an intermediate document remains on disk. -/
theorem C2_intermediate_cleanup (card : Card) (artwork : Option String)
    (output_path : String) (card_number : Nat) :
    (∀ template ok,
      (create_html_card card artwork template output_path card_number
        (.exits ok)).tempRemains = false)
    ∧ (∀ tmpl,
      (create_html_card card artwork (some tmpl) output_path card_number
        .raises).tempRemains = true
      ∧ (create_html_card card artwork (some tmpl) output_path card_number
        .raises).returned = false)
    ∧ (create_html_card card artwork none output_path card_number
        .raises).tempRemains = false := by
  refine ⟨?_, fun tmpl => ⟨rfl, rfl⟩, rfl⟩
  intro template ok
  cases template <;> rfl

/-! Per-index views of the pipeline loop, used to characterize the loop
state after `n` iterations. -/

/-- The archetype the loop assigns to card `i` (line 303). -/
def typeAt (card_types : List String) (i : Nat) : String :=
  card_types.getD (i % card_types.length) ""

/-- The Card the loop ends up with for index `i`: the content source's card,
or the deterministic fallback. -/
def cardAt (theme : String) (card_types : List String)
    (dataGen : Nat → Option Card) (i : Nat) : Card :=
  match dataGen i with
  | some c => c
  | none => _create_fallback_card theme (typeAt card_types i) i

/-- `card_filename_base` for index `i`. -/
def baseAt (theme : String) (card_types : List String)
    (dataGen : Nat → Option Card) (i : Nat) : String :=
  pyLower (pyReplace (cardAt theme card_types dataGen i).name " " "_")
    ++ "_" ++ toString i

/-- The card-data JSON path for index `i`. -/
def jsonAt (theme cards_dir : String) (card_types : List String)
    (dataGen : Nat → Option Card) (i : Nat) : String :=
  cards_dir ++ "/" ++ baseAt theme card_types dataGen i ++ ".json"

/-- The raw-artwork path for index `i`. -/
def rawAt (theme cards_dir : String) (card_types : List String)
    (dataGen : Nat → Option Card) (i : Nat) : String :=
  cards_dir ++ "/" ++ ("raw_" ++ baseAt theme card_types dataGen i ++ ".png")

/-- The rendered-card path for index `i`. -/
def playAt (theme cards_dir : String) (card_types : List String)
    (dataGen : Nat → Option Card) (i : Nat) : String :=
  cards_dir ++ "/" ++ baseAt theme card_types dataGen i ++ ".png"

/-- The three progress events iteration `i` emits, with their step numbers
3i, 3i+1, 3i+2. -/
def stepEvents (theme : String) (num_cards total : Int)
    (card_types : List String) (dataGen : Nat → Option Card) (i : Nat) :
    List (String × Int × Int) :=
  [("Generating card data " ++ toString (i + 1) ++ "/" ++ toString num_cards
      ++ ": " ++ typeAt card_types i, 3 * (i : Int), total),
   ("Generating artwork for " ++ (cardAt theme card_types dataGen i).name,
      3 * (i : Int) + 1, total),
   ("Creating playable card for "
      ++ (cardAt theme card_types dataGen i).name, 3 * (i : Int) + 2, total)]

/-- The loop state after `n` iterations, in closed form. -/
theorem pipeLoop_eq (theme cards_dir : String) (nc total : Int)
    (card_types : List String) (dataGen : Nat → Option Card)
    (imgGen renderOk : Nat → Bool) (n : Nat) :
    (List.range n).foldl
      (pipeStep theme cards_dir nc total card_types dataGen imgGen renderOk)
      { current_step := 0, events := [], cards := [], jsonFiles := [],
        rawFiles := [], cardImageFiles := [] } =
    { current_step := 3 * (n : Int),
      events := (List.range n).flatMap
        (stepEvents theme nc total card_types dataGen),
      cards := (List.range n).map (cardAt theme card_types dataGen),
      jsonFiles := (List.range n).map (jsonAt theme cards_dir card_types dataGen),
      rawFiles := ((List.range n).filter (fun i => imgGen i)).map
        (rawAt theme cards_dir card_types dataGen),
      cardImageFiles := ((List.range n).filter (fun i => renderOk i)).map
        (playAt theme cards_dir card_types dataGen) } := by
  induction n with
  | zero => simp
  | succ n ih =>
    rw [List.range_succ, List.foldl_append, ih]
    simp only [List.foldl_cons, List.foldl_nil, pipeStep]
    refine PipeState.mk.injEq .. |>.mpr ⟨?_, ?_, ?_, ?_, ?_, ?_⟩
    · push_cast
      ring
    · simp only [List.flatMap_append, List.flatMap_cons, List.flatMap_nil,
        List.append_nil, stepEvents, cardAt, typeAt]
      have h12 : 3 * (n : Int) + 1 + 1 = 3 * (n : Int) + 2 := by ring
      rw [h12]
    · simp [List.map_append, cardAt, typeAt]
    · simp [List.map_append, jsonAt, baseAt, cardAt, typeAt]
    · cases h : imgGen n <;>
        simp [h, List.filter_append, List.map_append, rawAt, baseAt, cardAt,
          typeAt]
    · cases h : renderOk n <;>
        simp [h, List.filter_append, List.map_append, playAt, baseAt, cardAt,
          typeAt]

/-- The step numbers of the loop's progress events are exactly
0, 1, ..., 3n-1. -/
theorem stepEvents_steps (theme : String) (nc total : Int)
    (card_types : List String) (dataGen : Nat → Option Card) (n : Nat) :
    ((List.range n).flatMap (stepEvents theme nc total card_types dataGen)).map
        (fun e => e.2.1)
      = (List.range (3 * n)).map Int.ofNat := by
  induction n with
  | zero => rfl
  | succ n ih =>
    rw [List.range_succ, List.flatMap_append]
    have h3 : 3 * (n + 1) = 3 * n + 1 + 1 + 1 := by ring
    rw [h3, List.range_succ, List.range_succ, List.range_succ]
    simp only [List.map_append, ih, List.flatMap_cons, List.flatMap_nil,
      List.append_nil, stepEvents, List.map_cons, List.map_nil]
    simp only [List.append_assoc, List.cons_append, List.nil_append,
      List.singleton_append]
    refine congrArg _ ?_
    norm_num

/-- Every progress event of the loop carries the fixed total. -/
theorem stepEvents_totals (theme : String) (nc total : Int)
    (card_types : List String) (dataGen : Nat → Option Card) (n : Nat) :
    ((List.range n).flatMap (stepEvents theme nc total card_types dataGen)).map
        (fun e => e.2.2)
      = List.replicate (3 * n) total := by
  induction n with
  | zero => rfl
  | succ n ih =>
    rw [List.range_succ, List.flatMap_append]
    have h3 : 3 * (n + 1) = 3 * n + 3 := by ring
    rw [h3, List.replicate_add]
    simp only [List.map_append, ih, List.flatMap_cons, List.flatMap_nil,
      List.append_nil, stepEvents, List.map_cons, List.map_nil]
    rfl

/-- In a concatenation `l ++ underscore :: d` whose tail `d` is
underscore-free, the tail is determined: it is whatever follows the last
underscore. -/
theorem underscore_tail_eq (l1 : List Char) :
    ∀ (l2 d1 d2 : List Char), '_' ∉ d1 → '_' ∉ d2 →
      l1 ++ '_' :: d1 = l2 ++ '_' :: d2 → d1 = d2 := by
  induction l1 with
  | nil =>
    intro l2 d1 d2 h1 h2 h
    cases l2 with
    | nil => simpa using h
    | cons c l2' =>
      simp only [List.nil_append, List.cons_append, List.cons.injEq] at h
      obtain ⟨hc, hd⟩ := h
      rw [hd] at h1
      exact absurd (by simp) h1
  | cons c l1' ih =>
    intro l2 d1 d2 h1 h2 h
    cases l2 with
    | nil =>
      simp only [List.nil_append, List.cons_append, List.cons.injEq] at h
      obtain ⟨hc, hd⟩ := h
      rw [← hd] at h2
      exact absurd (by simp) h2
    | cons c' l2' =>
      simp only [List.cons_append, List.cons.injEq] at h
      exact ih l2' d1 d2 h1 h2 h.2

/-- Appending strings concatenates their character lists. -/
theorem sdata_append (s t : String) : (s ++ t).data = s.data ++ t.data := by
  cases s
  cases t
  rfl

/-- The decimal numeral of an index below 20 contains no underscore. -/
theorem toString_no_underscore : ∀ i, i < 20 →
    '_' ∉ (toString (i : Nat)).data := by decide

/-- Decimal numerals of indices below 20 are distinct. -/
theorem toString_data_inj20 : ∀ i, i < 20 → ∀ j, j < 20 →
    (toString (i : Nat)).data = (toString (j : Nat)).data → i = j := by decide

/-- Two per-card file paths of the pipeline agree only on equal indices:
whatever the (index-dependent) name slug is, the index printed after the
last underscore decides equality. -/
theorem path_index_inj (p : String) (q1 q2 : String) {i j : Nat}
    (hi : i < 20) (hj : j < 20)
    (h : p ++ (q1 ++ "_" ++ toString i) ++ ".json"
       = p ++ (q2 ++ "_" ++ toString j) ++ ".json") : i = j := by
  have hdata := congrArg String.data h
  simp only [sdata_append, List.append_assoc] at hdata
  have hshape : (p.data ++ q1.data) ++ '_' :: ((toString i).data ++ ".json".data)
      = (p.data ++ q2.data) ++ '_' :: ((toString j).data ++ ".json".data) := by
    simpa [List.append_assoc] using hdata
  have hnu : ∀ k, k < 20 → '_' ∉ (toString (k : Nat)).data ++ ".json".data := by
    intro k hk hmem
    rcases List.mem_append.mp hmem with hmem | hmem
    · exact toString_no_underscore k hk hmem
    · revert hmem
      decide
  have htail := underscore_tail_eq _ _ _ _ (hnu i hi) (hnu j hj) hshape
  have hts : (toString (i : Nat)).data = (toString (j : Nat)).data :=
    (List.append_inj' htail rfl).1
  exact toString_data_inj20 i hi j hj hts

/-- The JSON files one run writes have pairwise distinct paths: the index
baked into `<slug(name)>_<i>.json` separates them even when two cards share
a name. -/
theorem jsonAt_nodup (theme cards_dir : String) (card_types : List String)
    (dataGen : Nat → Option Card) (n : Nat) (hn : n ≤ 20) :
    ((List.range n).map (jsonAt theme cards_dir card_types dataGen)).Nodup := by
  refine (List.nodup_range n).map_on ?_
  intro i hi j hj hij
  have hi' : i < 20 := lt_of_lt_of_le (List.mem_range.mp hi) hn
  have hj' : j < 20 := lt_of_lt_of_le (List.mem_range.mp hj) hn
  simp only [jsonAt, baseAt] at hij
  exact path_index_inj (cards_dir ++ "/") _ _ hi' hj' hij

/-- A non-empty catalog always resolves: either the requested id is
registered, or the first available descriptor is substituted. -/
theorem resolveTemplate_ok (templates : List (String × TemplateInfo))
    (style : String) (hne : templates ≠ []) :
    ∃ x, resolveTemplate templates style = .ok x := by
  rcases templates with _ | ⟨⟨k, info⟩, rest⟩
  · exact absurd rfl hne
  · rcases hl : List.lookup style ((k, info) :: rest) with _ | v
    · refine ⟨(k, info), ?_⟩
      simp only [resolveTemplate, hl, Option.isSome_none, Bool.false_eq_true,
        if_false]
      simp [List.lookup]
    · refine ⟨(style, v), ?_⟩
      simp only [resolveTemplate, hl, Option.isSome_some, if_true]

/-- The project directory one run uses. -/
def projectDirOf (theme output_dir : String) : String :=
  output_dir ++ "/" ++ (pyLower (pyReplace theme " " "_") ++ "_card_game")

/-- A successful `create_card_game_zip` run in closed form, given that
template resolution succeeds. -/
theorem create_ok (theme output_dir template_style : String)
    (fileExists : String → Bool) (dataGen : Nat → Option Card)
    (imgGen renderOk : Nat → Bool) (n : Nat) (ts : String)
    (info : TemplateInfo)
    (hres : resolveTemplate (get_available_templates fileExists)
      template_style = .ok (ts, info)) :
    create_card_game_zip theme output_dir (n : Int) template_style fileExists
        dataGen imgGen renderOk = .ok
      { events := (List.range n).flatMap
            (stepEvents theme (n : Int) ((n : Int) * 3)
              (_get_card_types_for_theme theme) dataGen)
          ++ [("Card game generated successfully!", (n : Int) * 3,
               (n : Int) * 3)],
        cards := (List.range n).map
          (cardAt theme (_get_card_types_for_theme theme) dataGen),
        jsonFiles := (List.range n).map
          (jsonAt theme (projectDirOf theme output_dir ++ "/cards")
            (_get_card_types_for_theme theme) dataGen),
        rawFiles := ((List.range n).filter (fun i => imgGen i)).map
          (rawAt theme (projectDirOf theme output_dir ++ "/cards")
            (_get_card_types_for_theme theme) dataGen),
        cardImageFiles := ((List.range n).filter (fun i => renderOk i)).map
          (playAt theme (projectDirOf theme output_dir ++ "/cards")
            (_get_card_types_for_theme theme) dataGen),
        rules := _generate_game_rules theme info.tname
          ((List.range n).map
            (cardAt theme (_get_card_types_for_theme theme) dataGen)),
        readme := _generate_readme theme info.tname
          ((List.range n).map
            (cardAt theme (_get_card_types_for_theme theme) dataGen)),
        rulesPath := projectDirOf theme output_dir ++ "/game_info"
          ++ "/game_rules.txt",
        readmePath := projectDirOf theme output_dir ++ "/README.md",
        zipPath := projectDirOf theme output_dir ++ ".zip",
        zipEntries := (List.range n).map
            (jsonAt theme (projectDirOf theme output_dir ++ "/cards")
              (_get_card_types_for_theme theme) dataGen)
          ++ ((List.range n).filter (fun i => imgGen i)).map
            (rawAt theme (projectDirOf theme output_dir ++ "/cards")
              (_get_card_types_for_theme theme) dataGen)
          ++ ((List.range n).filter (fun i => renderOk i)).map
            (playAt theme (projectDirOf theme output_dir ++ "/cards")
              (_get_card_types_for_theme theme) dataGen)
          ++ [projectDirOf theme output_dir ++ "/game_info"
                ++ "/game_rules.txt",
              projectDirOf theme output_dir ++ "/README.md"] } := by
  simp only [create_card_game_zip, hres, Int.toNat_ofNat, pipeLoop_eq,
    projectDirOf]

/-- C6: for any card count n in [1, 20], a run with a non-empty template
catalog succeeds and hands the progress sink the exact strictly increasing
step sequence 0, 1, ..., 3n-1 — triples (data, artwork, render) per card —
terminated by a final event at step 3n, every event carrying the fixed
total 3n; and it writes exactly n card JSON files (pairwise distinct
paths). -/
theorem C6_progress_protocol (theme output_dir template_style : String)
    (fileExists : String → Bool) (dataGen : Nat → Option Card)
    (imgGen renderOk : Nat → Bool) (n : Nat)
    (_h1 : 1 ≤ n) (h2 : n ≤ 20)
    (hcat : get_available_templates fileExists ≠ []) :
    ∃ r, create_card_game_zip theme output_dir (n : Int) template_style
        fileExists dataGen imgGen renderOk = .ok r
      ∧ r.events.map (fun e => e.2.1) = (List.range (3 * n + 1)).map Int.ofNat
      ∧ r.events.map (fun e => e.2.2)
          = List.replicate (3 * n + 1) ((3 * n : Nat) : Int)
      ∧ r.jsonFiles.length = n
      ∧ r.jsonFiles.Nodup
      ∧ r.cards.length = n := by
  obtain ⟨⟨ts, info⟩, hres⟩ :=
    resolveTemplate_ok (get_available_templates fileExists) template_style hcat
  refine ⟨_, create_ok theme output_dir template_style fileExists dataGen
    imgGen renderOk n ts info hres, ?_, ?_, ?_, ?_, ?_⟩
  · simp only [List.map_append, stepEvents_steps, List.map_cons, List.map_nil]
    rw [List.range_succ, List.map_append]
    simp only [List.map_cons, List.map_nil, List.append_cancel_left_eq,
      List.cons.injEq, and_true, Int.ofNat_eq_coe]
    push_cast
    ring
  · simp only [List.map_append, stepEvents_totals, List.map_cons,
      List.map_nil]
    have hc : ((3 * n : Nat) : Int) = (n : Int) * 3 := by push_cast; ring
    rw [hc, List.replicate_add]
    simp
  · simp
  · exact jsonAt_nodup theme _ _ dataGen n h2
  · simp

/-- C6 witness: the protocol at the concrete count 2, with every hypothesis
discharged by evaluation. -/
theorem C6_progress_protocol_witness :
    (1 ≤ 2) ∧ (2 ≤ 20) ∧ (get_available_templates (fun _ => true) ≠ [])
    ∧ ∃ r, create_card_game_zip "Fantasy" "out" ((2 : Nat) : Int)
        "bright_swiss" (fun _ => true) (fun _ => none) (fun _ => false)
        (fun _ => false) = .ok r
      ∧ r.events.map (fun e => e.2.1)
          = (List.range (3 * 2 + 1)).map Int.ofNat
      ∧ r.events.map (fun e => e.2.2)
          = List.replicate (3 * 2 + 1) ((3 * 2 : Nat) : Int)
      ∧ r.jsonFiles.length = 2
      ∧ r.jsonFiles.Nodup
      ∧ r.cards.length = 2 :=
  ⟨by decide, by decide, by decide,
   C6_progress_protocol "Fantasy" "out" "bright_swiss" (fun _ => true)
     (fun _ => none) (fun _ => false) (fun _ => false) 2 (by decide)
     (by decide) (by decide)⟩

/-- C8 counterexample: in the all-remote-failures scenario nothing is ever
written under `cards/raw_*` — on artwork failure the bundled placeholder
path is substituted in place, not copied into the project — so the archive
holds zero raw images, not the two the claim asserts. -/
theorem C8_counterexample :
    runRawFiles (create_card_game_zip "Fantasy" "out" 2 "bright_swiss"
        (fun _ => true) (fun _ => none) (fun _ => false) (fun _ => false))
      = some []
    ∧ runRawFiles (create_card_game_zip "Fantasy" "out" 2 "bright_swiss"
        (fun _ => true) (fun _ => none) (fun _ => false) (fun _ => false))
      ≠ some ["out/fantasy_card_game/cards/raw_generic_creature_1_0.png",
              "out/fantasy_card_game/cards/raw_generic_spell_2_1.png"] := by
  exact ⟨by decide, by decide⟩

set_option maxRecDepth 8192 in
/-- C8 (amended): theme "Fantasy", card count 2, template "bright_swiss",
every remote call failing: the run still succeeds and its archive holds
exactly the two fallback card JSON files (Generic Creature 1, Generic
Spell 2), the rules file and the README — no raw images (the bundled
placeholder is referenced in place, never copied into `cards/`) and, with
the renderer also failing, no rendered images; the README lists exactly the
two cards in generation order and the rules file lists the distinct card
types creature and spell. -/
theorem C8_degraded_end_to_end :
    ∃ r, create_card_game_zip "Fantasy" "out" 2 "bright_swiss"
        (fun _ => true) (fun _ => none) (fun _ => false) (fun _ => false)
        = .ok r
      ∧ r.cards.map (fun c => c.name)
          = ["Generic Creature 1", "Generic Spell 2"]
      ∧ r.cards.map (fun c => c.card_type) = ["creature", "spell"]
      ∧ r.jsonFiles = ["out/fantasy_card_game/cards/generic_creature_1_0.json",
                       "out/fantasy_card_game/cards/generic_spell_2_1.json"]
      ∧ r.rawFiles = []
      ∧ r.cardImageFiles = []
      ∧ dedupFirst (r.cards.map fun c => c.card_type) = ["creature", "spell"]
      ∧ r.readme = "# Fantasy Card Game\n\nThis card game was generated using the Card Game Generator.\n\n**Template Style:** Bright Swiss Design\n\n## Contents\n- `cards/`: Contains all card data (JSON) and images (PNG)\n- `game_info/`: Contains game rules and documentation\n\n## Cards Generated\n1. **Generic Creature 1** (creature): A creature card for the Fantasy theme. (API Error Fallback)\n2. **Generic Spell 2** (spell): A spell card for the Fantasy theme. (API Error Fallback)\n"
      ∧ r.rules = "Card Game: Fantasy\n" ++ (⟨List.replicate 50 '='⟩ : String)
          ++ "\n\nTemplate Style: Bright Swiss Design\n\nBASIC RULES:\n- Each player starts with a deck of cards\n- Draw cards from your deck each turn\n- Play cards to attack opponents or defend yourself\n- Use card stats (power, cost, etc.) to determine outcomes\n- First player to reduce opponent\x27s health to 0 wins!\n\nCARD TYPES:\n- Creature: Special abilities and effects\n- Spell: Special abilities and effects\n\nGenerated 2 unique cards for your Fantasy themed game!\n"
      ∧ r.zipEntries
          = ["out/fantasy_card_game/cards/generic_creature_1_0.json",
             "out/fantasy_card_game/cards/generic_spell_2_1.json",
             "out/fantasy_card_game/game_info/game_rules.txt",
             "out/fantasy_card_game/README.md"]
      ∧ r.zipPath = "out/fantasy_card_game.zip" := by
  refine ⟨_, rfl, ?_, ?_, ?_, ?_, ?_, ?_, ?_, ?_, ?_, ?_⟩ <;> decide

/-- C10 counterexample: a negative count is not validated either, and its
single final progress event carries step = total = 3 times the count —
here (-3, -3), not the (0, 0) the claim asserts for every non-positive
count. -/
theorem C10_counterexample :
    runEventSteps (create_card_game_zip "Fantasy" "out" (-1) "bright_swiss"
        (fun _ => true) (fun _ => none) (fun _ => false) (fun _ => false))
      = some [((-3 : Int), (-3 : Int))]
    ∧ runEventSteps (create_card_game_zip "Fantasy" "out" (-1) "bright_swiss"
        (fun _ => true) (fun _ => none) (fun _ => false) (fun _ => false))
      ≠ some [((0 : Int), (0 : Int))] := by
  exact ⟨by decide, by decide⟩

/-- C10 (amended): the pipeline never validates the card count against
[1, 20]: for any non-positive count (catalog non-empty) the run still
resolves its template, generates zero cards, writes a rules file and README
built from the empty card list, creates and returns the archive, and emits
exactly one progress event — the final one, with step = total = 3·num_cards
(hence (0, 0) exactly when the count is 0). -/
theorem C10_nonpositive_count (theme output_dir template_style : String)
    (fileExists : String → Bool) (dataGen : Nat → Option Card)
    (imgGen renderOk : Nat → Bool) (num_cards : Int) (hn : num_cards ≤ 0)
    (hcat : get_available_templates fileExists ≠ []) :
    ∃ ts info r,
      resolveTemplate (get_available_templates fileExists) template_style
        = .ok (ts, info)
      ∧ create_card_game_zip theme output_dir num_cards template_style
          fileExists dataGen imgGen renderOk = .ok r
      ∧ r.cards = []
      ∧ r.jsonFiles = []
      ∧ r.rawFiles = []
      ∧ r.cardImageFiles = []
      ∧ r.events = [("Card game generated successfully!", num_cards * 3,
          num_cards * 3)]
      ∧ r.rules = _generate_game_rules theme info.tname []
      ∧ r.readme = _generate_readme theme info.tname []
      ∧ readmeLines [] 0 = ""
      ∧ r.zipEntries = [projectDirOf theme output_dir ++ "/game_info"
            ++ "/game_rules.txt",
          projectDirOf theme output_dir ++ "/README.md"]
      ∧ r.zipPath = projectDirOf theme output_dir ++ ".zip" := by
  obtain ⟨⟨ts, info⟩, hres⟩ :=
    resolveTemplate_ok (get_available_templates fileExists) template_style hcat
  have hrun : create_card_game_zip theme output_dir num_cards template_style
      fileExists dataGen imgGen renderOk = .ok
      { events := [("Card game generated successfully!", num_cards * 3,
          num_cards * 3)],
        cards := [], jsonFiles := [], rawFiles := [], cardImageFiles := [],
        rules := _generate_game_rules theme info.tname [],
        readme := _generate_readme theme info.tname [],
        rulesPath := projectDirOf theme output_dir ++ "/game_info"
          ++ "/game_rules.txt",
        readmePath := projectDirOf theme output_dir ++ "/README.md",
        zipPath := projectDirOf theme output_dir ++ ".zip",
        zipEntries := [projectDirOf theme output_dir ++ "/game_info"
            ++ "/game_rules.txt",
          projectDirOf theme output_dir ++ "/README.md"] } := by
    simp only [create_card_game_zip, hres, Int.toNat_of_nonpos hn,
      List.range_zero, List.foldl_nil, List.nil_append, projectDirOf]
  exact ⟨ts, info, _, hres, hrun, rfl, rfl, rfl, rfl, rfl, rfl, rfl, rfl,
    rfl, rfl⟩

/-- C10 witness: the amended theorem applied at count 0, and with it the
concrete zero-count run — one (0, 0) event and a rules file reporting zero
generated cards. -/
theorem C10_nonpositive_count_witness :
    runEvents (create_card_game_zip "Fantasy" "out" 0 "bright_swiss"
        (fun _ => true) (fun _ => none) (fun _ => false) (fun _ => false))
      = some [("Card game generated successfully!", 0, 0)] := by
  obtain ⟨ts, info, r, hres, hrun, hcards, hjson, hraw, himg, hev, hrules,
    hreadme, hlines, hzip, hzipPath⟩ :=
    C10_nonpositive_count "Fantasy" "out" "bright_swiss" (fun _ => true)
      (fun _ => none) (fun _ => false) (fun _ => false) 0 (by decide)
      (by decide)
  rw [hrun]
  simp [runEvents, hev]

/-- A well-shaped response for the success path of the content source. -/
def goodResponse : JValue :=
  .obj [("choices",
    .arr [.obj [("message", .obj [("content", .str "CARD")])]])]

/-- The parsed message content of `goodResponse`: a document with exactly
the five expected fields. -/
def goodCardDoc : JValue :=
  .obj [("name", .str "Crystal Golem"),
        ("description", .str "A living gem construct."),
        ("image_prompt", .str "a crystal golem, digital art"),
        ("stats", .obj [("Power", .int 7), ("Cost", .int 4)]),
        ("card_type", .str "creature")]

/-- A parse oracle that parses the content of `goodResponse` to
`goodCardDoc`. -/
def goodParse (s : String) : Option JValue :=
  if s = "CARD" then some goodCardDoc else none

/-- C3 witness: the amended theorem applied at a concrete well-shaped
response, discharging the success-path implication by evaluation. -/
theorem C3_exception_policy_witness :
    extract_card goodResponse goodParse =
      .ok { name := .str "Crystal Golem",
            description := .str "A living gem construct.",
            image_prompt := .str "a crystal golem, digital art",
            stats := .obj [("Power", .int 7), ("Cost", .int 4)],
            card_type := .str "creature" } :=
  (C3_exception_policy goodParse goodResponse).2.2.2.2.2 _ rfl
